import Mathlib

/-!
Verification of the route pattern compiler and matching engine of the
`webserver` package (file `webserver/adt_route.go`).

Go byte slices and strings are embedded as `List Char`.  Fallible code is
embedded in `Option`: a `none` result models a Go runtime panic (index out
of range / slice bounds).  The deliberate `NewHTTPError(status).Panic()` in
`getRoute` is modelled by the `RouteResult.httpPanic` constructor.
-/

namespace AdtRoute

abbrev Bytes := List Char

/-- Parameter bindings: the Go `map[string]string`, embedded as an
association list with insert-or-replace semantics. -/
abbrev Params := List (Bytes × Bytes)

/-- Go map assignment `m[k] = v`: replace the value if the key is present,
otherwise append the new entry. -/
def assocSet {α β : Type} [DecidableEq α] : List (α × β) → α → β → List (α × β)
  | [], k, v => [(k, v)]
  | (k', v') :: rest, k, v =>
    if k' = k then (k, v) :: rest else (k', v') :: assocSet rest k v

/-- Go `bytes.Split(data, sep)` for a one-byte separator: split around every
occurrence of `sep`; the empty slice splits to one empty token. -/
def splitOn (sep : Char) : Bytes → List Bytes
  | [] => [[]]
  | c :: rest =>
    match splitOn sep rest with
    | [] => [[]]
    | t :: ts => if c = sep then [] :: t :: ts else (c :: t) :: ts

/-- Go `bytes.LastIndexByte(data, c)` (as `Option` instead of `-1`). -/
def lastIndexOf (c : Char) (data : Bytes) : Option Nat :=
  (data.reverse.findIdx? (· = c)).map (fun i => data.length - 1 - i)

/-- `isOptional` from adt_route.go: `pattern[len(pattern)-2] == '?'`.
A slice shorter than 2 bytes makes the Go index negative: runtime panic,
modelled by `none`. -/
def isOptional (pattern : Bytes) : Option Bool :=
  if pattern.length ≥ 2 then some (pattern.getD (pattern.length - 2) ' ' = '?')
  else none

/-- `trimSlashes(data, begin)` from adt_route.go.  When `begin` is at least
the length, the function returns `data` unchanged.  Otherwise it advances
`begin` over one leading `'/'` (when the slice is longer than 1), retreats
`end` over one trailing `'/'`, and returns `data[begin:end]`; when
`begin > end` the Go slice expression panics, modelled by `none`. -/
def trimSlashes (data : Bytes) (bg : Nat) : Option Bytes :=
  let dataLength := data.length
  if dataLength ≤ bg then some data
  else
    let b := if data.getD bg ' ' = '/' ∧ dataLength > 1 then bg + 1 else bg
    let e := if data.getD (dataLength - 1) ' ' = '/' then dataLength - 1 else dataLength
    if b ≤ e then some ((data.take e).drop b) else none

/-- `trimSlashes(data, 0)`, which never takes the panicking branch
(see `trimSlashes_zero_isSome`). -/
def trim0 (data : Bytes) : Bytes :=
  (trimSlashes data 0).getD data

/-- `parsePathParam(pattern, path)` from adt_route.go: strip the braces
(and a trailing `?`) from the parameter token and hand back the actual
value.  Go slice-bound violations are `none`. -/
def parsePathParam (pattern path : Bytes) : Option (Bytes × Bytes × Bool) :=
  match isOptional pattern with
  | none => none
  | some isOpt =>
    if ¬isOpt ∧ path.length = 0 then some ([], path, isOpt)
    else
      let e := if isOpt then pattern.length - 2 else pattern.length - 1
      if 1 ≤ e then some ((pattern.take e).drop 1, path, isOpt) else none

/-- `matchTokens(tokensPattern, tokens, params)` from adt_route.go.  The Go
loop walks the pattern with an index into `tokens`; reaching the end of the
pattern with the index equal to `len(tokens)` is success, otherwise 404.
The walk is embedded as parallel recursion on both lists (the index equals
the number of consumed tokens, so `index == len(tokens)` is exactly
"actual tokens exhausted").  Status `0` is a match, `404`/`400` the
classified failures; `none` is a Go runtime panic. -/
def matchTokens : List Bytes → List Bytes → Params → Option (Params × Nat)
  | [], toks, params => some (params, if toks.isEmpty then 0 else 404)
  | key :: _, [], params =>
    (match isOptional key with
     | none => none
     | some b => some (params, if b then 0 else 404))
  | key :: restPat, tok :: restTok, params =>
    match key with
    | [] => none
    | c :: keyRest =>
      if c = '*' then
        if keyRest.head? = some '*' then some (params, 0)
        else matchTokens restPat restTok params
      else if c = '{' then
        match parsePathParam (c :: keyRest) tok with
        | none => none
        | some (name, value, isOpt) =>
          if value.length ≠ 0 then
            matchTokens restPat restTok (assocSet params name value)
          else if isOpt then matchTokens restPat restTok params
          else some (params, 400)
      else
        if c :: keyRest = tok then matchTokens restPat restTok params
        else some (params, 404)

/-- The compiled route: `dynamicHost`, `staticPattern`, `dynamicPattern`,
`methods` (`none` is the Go `nil` slice) and an opaque handler id. -/
structure Route where
  dynamicHost : List Bytes := []
  staticPattern : Bytes := []
  dynamicPattern : List Bytes := []
  methods : Option (List Bytes) := none
  handler : Nat := 0
deriving DecidableEq, Repr

/-- `route.acceptsMethod(method)`: a `nil` methods slice accepts every
method, otherwise membership. -/
def acceptsMethod (r : Route) (method : Bytes) : Bool :=
  match r.methods with
  | none => true
  | some ms => ms.contains method

/-- `splitHostPort(hostPort)`: split at the last `':'`, if any. -/
def splitHostPort (hostPort : Bytes) : Bytes × Bytes :=
  match lastIndexOf ':' hostPort with
  | none => (hostPort, [])
  | some i => (hostPort.take i, hostPort.drop (i + 1))

/-- `route.extractAndSetPattern(pattern)`: split a raw pattern into the
reversed host tokens, the static path prefix (the bucket key) and the
dynamic path tokens. -/
def extractAndSetPattern (pattern : Bytes) : Route :=
  match pattern.findIdx? (· = '/') with
  | none => { dynamicHost := (splitOn '.' pattern).reverse }
  | some i =>
    let dynamicHost := if i > 0 then (splitOn '.' (pattern.take i)).reverse else []
    let pattern := pattern.drop i
    match pattern.findIdx? (fun c => c = '{' ∨ c = '*') with
    | none => { dynamicHost := dynamicHost, staticPattern := trim0 pattern }
    | some j =>
      let dynamicPattern := pattern.drop j
      let staticRaw := pattern.take j
      let staticRaw := staticRaw.take (((lastIndexOf '/' staticRaw).map (· + 1)).getD 0)
      { dynamicHost := dynamicHost
        staticPattern := trim0 staticRaw
        dynamicPattern := splitOn '/' (trim0 dynamicPattern) }

/-- `newRoute(methods, pattern, handler)`. -/
def newRoute (methods : Option (List Bytes)) (pattern : Bytes) (handler : Nat) : Route :=
  { extractAndSetPattern pattern with methods := methods, handler := handler }

/-- The reversed host labels of the incoming request, port stripped:
`bytes.Split([]byte(host), dotSlice)` followed by `reversePattern`. -/
def hostTokensOf (hostPort : Bytes) : List Bytes :=
  (splitOn '.' (splitHostPort hostPort).1).reverse

/-- The path half of `route.matchURLAndGetParam`: the static length check
(line 120) and the dynamic-token match on
`bytes.Split(trimSlashes(pathBytes, len(staticPattern)), slashSlice)`. -/
def matchPathPart (r : Route) (pathBytes : Bytes) (params : Params) : Option (Params × Nat) :=
  if pathBytes.length = r.staticPattern.length ∧ r.dynamicPattern = [] then some ([], 0)
  else
    match trimSlashes pathBytes r.staticPattern.length with
    | none => none
    | some t => matchTokens r.dynamicPattern (splitOn '/' t) params

/-- `route.matchURLAndGetParam(hostPort, path)`: validate the dynamic host
(when present), then the path.  A failing host match returns `nil` params
with the matcher's status. -/
def matchURLAndGetParam (r : Route) (hostPort path : Bytes) : Option (Params × Nat) :=
  let pathBytes := trim0 path
  if r.dynamicHost.isEmpty then matchPathPart r pathBytes []
  else
    match matchTokens r.dynamicHost (hostTokensOf hostPort) [] with
    | none => none
    | some (params, status) =>
      if status ≠ 0 then some ([], status) else matchPathPart r pathBytes params

/-- The outcome of `routesByPattern.getRoute`: a normal return with the
matched route and its bindings, the deliberate
`NewHTTPError(errorStatus, nil).Panic()`, or an unclassified Go runtime
panic raised inside matching. -/
inductive RouteResult where
  | found (r : Route) (params : Params)
  | httpPanic (status : Nat)
  | runtimePanic
deriving DecidableEq, Repr

/-- The candidate loop of `routesByPattern.getRoute` with its `errorStatus`
accumulator: a failing candidate's status overwrites the accumulator only
while it is still 404; a candidate that matches host and path but not the
method sets it to 405 unconditionally; the first full match returns. -/
def getRouteLoop (method hostPort path : Bytes) : List Route → Nat → RouteResult
  | [], errorStatus => .httpPanic errorStatus
  | r :: rest, errorStatus =>
    match matchURLAndGetParam r hostPort path with
    | none => .runtimePanic
    | some (params, statusCode) =>
      if statusCode ≠ 0 then
        getRouteLoop method hostPort path rest
          (if errorStatus = 404 then statusCode else errorStatus)
      else if acceptsMethod r method then .found r params
      else getRouteLoop method hostPort path rest 405

/-- The route table `routesByPattern`: static bucket key to the candidates
registered under it, in registration order. -/
abbrev RoutesByPattern := List (Bytes × List Route)

/-- Go map read `(*this)[pattern]` with its empty default. -/
def lookupRoutes (t : RoutesByPattern) (pattern : Bytes) : List Route :=
  match t.lookup pattern with
  | some rs => rs
  | none => []

/-- `routesByPattern.Add`: compile and append to the bucket keyed by the
static pattern. -/
def addRoute (t : RoutesByPattern) (methods : Option (List Bytes)) (pattern : Bytes)
    (handler : Nat) : RoutesByPattern :=
  let r := newRoute methods pattern handler
  assocSet t r.staticPattern (lookupRoutes t r.staticPattern ++ [r])

/-- `routesByPattern.getRoute(method, pattern, hostPort, path)`. -/
def getRoute (t : RoutesByPattern) (method pattern hostPort path : Bytes) : RouteResult :=
  getRouteLoop method hostPort path (lookupRoutes t pattern) 404

/- ===== Candidate classification predicates (derived from the source) ===== -/

/-- A candidate whose host and path both match but whose method set rejects
the incoming method: the candidate that makes `getRoute` set 405. -/
def isFullMatchNoMethod (method hostPort path : Bytes) (r : Route) : Bool :=
  match matchURLAndGetParam r hostPort path with
  | some (_, status) => status == 0 && !(acceptsMethod r method)
  | none => false

/-- A candidate for which `matchURLAndGetParam` reports 400 (host or path
token matching hit a present-but-empty required parameter). -/
def isBadRequestCand (hostPort path : Bytes) (r : Route) : Bool :=
  match matchURLAndGetParam r hostPort path with
  | some (_, status) => status == 400
  | none => false

/-- A candidate that fully matches: host and path match and the method is
accepted. -/
def isFullMatch (method hostPort path : Bytes) (r : Route) : Bool :=
  match matchURLAndGetParam r hostPort path with
  | some (_, status) => status == 0 && acceptsMethod r method
  | none => false

/-- The host half of `matchURLAndGetParam` in isolation: trivially
successful when the route has no dynamic host. -/
def hostMatchResult (r : Route) (hostPort : Bytes) : Option (Params × Nat) :=
  if r.dynamicHost.isEmpty then some ([], 0)
  else matchTokens r.dynamicHost (hostTokensOf hostPort) []

/-- Transcribed from the claim's wording (spec section 4.4 step 3 and
section 7), for comparison against the source behaviour: a candidate whose
PATH shape matched modulo a present-but-empty required parameter, i.e. the
host side passed and path token matching returned bad-request. -/
def specPathShapeBadRequest (hostPort path : Bytes) (r : Route) : Bool :=
  match hostMatchResult r hostPort with
  | some (ps, status) =>
    if status == 0 then
      match matchPathPart r (trim0 path) ps with
      | some (_, pstatus) => pstatus == 400
      | none => false
    else false
  | none => false

/-- Transcribed from the claim's wording: report 405 when some candidate
matched host and path and failed only on method, otherwise 400 when some
candidate's path shape matched modulo a malformed parameter value,
otherwise 404. -/
def specClaimStatus (method hostPort path : Bytes) (rs : List Route) : Nat :=
  if rs.any (isFullMatchNoMethod method hostPort path) then 405
  else if rs.any (specPathShapeBadRequest hostPort path) then 400
  else 404

/- ===== Concrete registered routes used in the concrete scenarios ===== -/

/-- The catch-all static pattern `/`. -/
def rootRoute : Route := newRoute none "/".toList 0

/-- The pattern `{sub}.example.com/x`: a required host parameter over a
purely static path. -/
def routeHostParam : Route := newRoute none "\x7bsub\x7d.example.com/x".toList 0

/-- The pattern `/a/b/{name?}`: optional trailing parameter after a
two-segment static prefix. -/
def routeOptTwoSeg : Route := newRoute none "/a/b/\x7bname?\x7d".toList 0

/-- The pattern `/a/{name?}`: optional trailing parameter after a
one-segment static prefix. -/
def routeOptOneSeg : Route := newRoute none "/a/\x7bname?\x7d".toList 0

/-- The pattern `/a/*/c`: single wildcard between literals. -/
def routeStarMid : Route := newRoute none "/a/*/c".toList 0

/-- The pattern `/\x7bid\x7d`: one required path parameter. -/
def routeIdParam : Route := newRoute none "/\x7bid\x7d".toList 0

/-- The pattern `/a/**`: trailing wildcard-all. -/
def routeWildAll : Route := newRoute none "/a/**".toList 0

/-- The pattern `/a/{p}/**`: wildcard-all after a required parameter. -/
def routeParamWildAll : Route := newRoute none "/a/\x7bp\x7d/**".toList 0

/-- The pattern `{sub}.example.com/x/{p}`: host parameter and one dynamic
path parameter. -/
def routeHostSub : Route := newRoute none "\x7bsub\x7d.example.com/x/\x7bp\x7d".toList 0

/-- The purely static pattern `/abc`. -/
def routeAbc : Route := newRoute none "/abc".toList 0

/-- The route `/p` registered restricted to GET, handler 1. -/
def routeGetP : Route := newRoute (some ["GET".toList]) "/p".toList 1

/-- The route `/p` registered restricted to POST, handler 2. -/
def routePostP : Route := newRoute (some ["POST".toList]) "/p".toList 2

/-- A table with the same pattern `/p` registered under GET (handler 1)
and then POST (handler 2). -/
def methodTable : RoutesByPattern :=
  addRoute (addRoute [] (some ["GET".toList]) "/p".toList 1) (some ["POST".toList]) "/p".toList 2

/- ======================= Helper lemmas ======================= -/

/-- `trimSlashes` with `begin = 0` never takes the panicking branch, so
`trim0` is exactly the source's `trimSlashes(data, 0)`. -/
theorem trimSlashes_zero_isSome (data : Bytes) : (trimSlashes data 0).isSome := by
  unfold trimSlashes
  by_cases h0 : data.length ≤ 0
  · simp [h0]
  · simp only [h0, if_false]
    have hble : (if List.getD data 0 ' ' = '/' ∧ data.length > 1 then 0 + 1 else 0) ≤
        if List.getD data (data.length - 1) ' ' = '/' then data.length - 1
        else data.length := by
      split
      · rename_i hb
        obtain ⟨-, hb2⟩ := hb
        split <;> omega
      · split <;> omega
    rw [if_pos hble]
    exact Option.isSome_some

/-- Every status produced by `matchTokens` is a match (0), bad-request
(400) or not-found (404). -/
theorem matchTokens_status (pat : List Bytes) :
    ∀ (toks : List Bytes) (params ps : Params) (s : Nat),
    matchTokens pat toks params = some (ps, s) → s = 0 ∨ s = 400 ∨ s = 404 := by
  induction pat with
  | nil =>
    intro toks params ps s h
    simp only [matchTokens, Option.some.injEq, Prod.mk.injEq] at h
    obtain ⟨-, hs⟩ := h
    split at hs <;> omega
  | cons key restPat ih =>
    intro toks params ps s h
    cases toks with
    | nil =>
      simp only [matchTokens] at h
      cases hopt : isOptional key with
      | none => rw [hopt] at h; exact absurd h (by simp)
      | some b =>
        rw [hopt] at h
        simp only [Option.some.injEq, Prod.mk.injEq] at h
        obtain ⟨-, hs⟩ := h
        split at hs <;> omega
    | cons tok restTok =>
      cases key with
      | nil => simp [matchTokens] at h
      | cons c keyRest =>
        simp only [matchTokens] at h
        by_cases hc : c = '*'
        · rw [if_pos hc] at h
          by_cases hstar : keyRest.head? = some '*'
          · rw [if_pos hstar] at h
            simp only [Option.some.injEq, Prod.mk.injEq] at h
            omega
          · rw [if_neg hstar] at h
            exact ih _ _ _ _ h
        · rw [if_neg hc] at h
          by_cases hb : c = '{'
          · rw [if_pos hb] at h
            cases hp : parsePathParam (c :: keyRest) tok with
            | none => rw [hp] at h; exact absurd h (by simp)
            | some triple =>
              obtain ⟨name, value, isOpt⟩ := triple
              rw [hp] at h
              simp only at h
              by_cases hv : value.length ≠ 0
              · rw [if_pos hv] at h
                exact ih _ _ _ _ h
              · rw [if_neg hv] at h
                cases isOpt with
                | true => simp only [if_true] at h; exact ih _ _ _ _ h
                | false =>
                  simp only [Bool.false_eq_true, if_false, Option.some.injEq,
                    Prod.mk.injEq] at h
                  omega
          · rw [if_neg hb] at h
            by_cases heq : c :: keyRest = tok
            · rw [if_pos heq] at h
              exact ih _ _ _ _ h
            · rw [if_neg heq] at h
              simp only [Option.some.injEq, Prod.mk.injEq] at h
              omega

/-- Every status produced by the path half of the matcher is 0, 400 or
404. -/
theorem matchPathPart_status (r : Route) (pathBytes : Bytes) (params ps : Params) (s : Nat)
    (h : matchPathPart r pathBytes params = some (ps, s)) : s = 0 ∨ s = 400 ∨ s = 404 := by
  unfold matchPathPart at h
  split at h
  · simp only [Option.some.injEq, Prod.mk.injEq] at h
    omega
  · cases htr : trimSlashes pathBytes r.staticPattern.length with
    | none => rw [htr] at h; exact absurd h (by simp)
    | some t => rw [htr] at h; exact matchTokens_status _ _ _ _ _ h

/-- Every status produced by `matchURLAndGetParam` is 0, 400 or 404. -/
theorem matchURLAndGetParam_status (r : Route) (hostPort path : Bytes) (ps : Params) (s : Nat)
    (h : matchURLAndGetParam r hostPort path = some (ps, s)) : s = 0 ∨ s = 400 ∨ s = 404 := by
  unfold matchURLAndGetParam at h
  by_cases hde : r.dynamicHost.isEmpty
  · rw [if_pos hde] at h
    exact matchPathPart_status _ _ _ _ _ h
  · rw [if_neg hde] at h
    cases hm : matchTokens r.dynamicHost (hostTokensOf hostPort) [] with
    | none => rw [hm] at h; exact absurd h (by simp)
    | some pr =>
      obtain ⟨hp, hs⟩ := pr
      rw [hm] at h
      simp only at h
      by_cases hs0 : hs ≠ 0
      · rw [if_pos hs0] at h
        simp only [Option.some.injEq, Prod.mk.injEq] at h
        obtain ⟨-, rfl⟩ := h
        exact matchTokens_status _ _ _ _ _ hm
      · rw [if_neg hs0] at h
        exact matchPathPart_status _ _ _ _ _ h

/-- The value of the `errorStatus` accumulator when the candidate loop of
`getRoute` falls through without a full match, for an arbitrary incoming
accumulator: 405 wins whenever some candidate matched host and path and
failed only on method; otherwise a non-404 accumulator is sticky;
otherwise 400 wins over 404. -/
theorem getRouteLoop_classify (method hostPort path : Bytes) (rs : List Route) :
    ∀ (e s : Nat), getRouteLoop method hostPort path rs e = .httpPanic s →
    s = if rs.any (isFullMatchNoMethod method hostPort path) then 405
        else if e ≠ 404 then e
        else if rs.any (isBadRequestCand hostPort path) then 400
        else 404 := by
  induction rs with
  | nil =>
    intro e s h
    simp only [getRouteLoop, RouteResult.httpPanic.injEq] at h
    subst h
    simp only [List.any_nil, Bool.false_eq_true, if_false]
    by_cases he : e = 404 <;> simp [he]
  | cons r rest ih =>
    intro e s h
    simp only [getRouteLoop] at h
    cases hm : matchURLAndGetParam r hostPort path with
    | none => rw [hm] at h; exact absurd h (by simp)
    | some pr =>
      obtain ⟨params, sc⟩ := pr
      rw [hm] at h
      simp only at h
      rw [List.any_cons, List.any_cons]
      by_cases hsc : sc ≠ 0
      · rw [if_pos hsc] at h
        have h405 : isFullMatchNoMethod method hostPort path r = false := by
          simp only [isFullMatchNoMethod, hm, Bool.and_eq_false_iff]
          left
          simpa using hsc
        rw [h405, Bool.false_or]
        rcases matchURLAndGetParam_status _ _ _ _ _ hm with rfl | rfl | rfl
        · exact absurd rfl hsc
        · have hbr : isBadRequestCand hostPort path r = true := by
            simp [isBadRequestCand, hm]
          rw [hbr, Bool.true_or]
          by_cases he : e = 404
          · rw [if_pos he] at h
            subst he
            have hspec := ih 400 s h
            by_cases hany : rest.any (isFullMatchNoMethod method hostPort path) = true
            · rw [if_pos hany] at hspec
              rw [if_pos hany]
              exact hspec
            · rw [Bool.not_eq_true] at hany
              rw [hany] at hspec ⊢
              simp only [Bool.false_eq_true, if_false] at hspec ⊢
              rw [if_pos (by omega : (400 : Nat) ≠ 404)] at hspec
              rw [if_neg (by omega : ¬(404 : Nat) ≠ 404)]
              simpa using hspec
          · rw [if_neg he] at h
            have hspec := ih e s h
            rw [if_pos he] at hspec ⊢
            exact hspec
        · have hbr : isBadRequestCand hostPort path r = false := by
            simp [isBadRequestCand, hm]
          rw [hbr, Bool.false_or]
          have he' : (if e = 404 then (404 : Nat) else e) = e := by
            by_cases he : e = 404 <;> simp [he]
          rw [he'] at h
          exact ih e s h
      · rw [if_neg hsc] at h
        rw [Ne, Decidable.not_not] at hsc
        subst hsc
        by_cases hacc : acceptsMethod r method = true
        · rw [if_pos hacc] at h
          exact absurd h (by simp)
        · rw [Bool.not_eq_true] at hacc
          rw [hacc] at h
          simp only [Bool.false_eq_true, if_false] at h
          have h405 : isFullMatchNoMethod method hostPort path r = true := by
            simp [isFullMatchNoMethod, hm, hacc]
          have hspec := ih 405 s h
          rw [h405, Bool.true_or, if_pos rfl]
          by_cases hany : rest.any (isFullMatchNoMethod method hostPort path) = true
          · rw [if_pos hany] at hspec
            exact hspec
          · rw [Bool.not_eq_true] at hany
            rw [hany] at hspec
            simp only [Bool.false_eq_true, if_false] at hspec
            rw [if_pos (by omega : (405 : Nat) ≠ 404)] at hspec
            exact hspec

/-- The candidate loop returns the first full match, whatever the current
accumulator, provided every earlier candidate evaluated without a runtime
panic and was not itself a full match. -/
theorem getRouteLoop_first_match (method hostPort path : Bytes) (pre : List Route) :
    ∀ (r : Route) (post : List Route) (params : Params) (e : Nat),
    (∀ x ∈ pre, (matchURLAndGetParam x hostPort path).isSome ∧
        isFullMatch method hostPort path x = false) →
    matchURLAndGetParam r hostPort path = some (params, 0) →
    acceptsMethod r method = true →
    getRouteLoop method hostPort path (pre ++ r :: post) e = .found r params := by
  induction pre with
  | nil =>
    intro r post params e _ hr hacc
    simp only [List.nil_append, getRouteLoop, hr]
    rw [if_neg (by simp), if_pos hacc]
  | cons x xs ih =>
    intro r post params e hpre hr hacc
    obtain ⟨hsome, hnf⟩ := hpre x (List.mem_cons_self x xs)
    simp only [List.cons_append, getRouteLoop]
    rw [Option.isSome_iff_exists] at hsome
    obtain ⟨pr, hmx⟩ := hsome
    obtain ⟨px, scx⟩ := pr
    rw [hmx]
    simp only
    have htail := ih r post params
    by_cases hscx : scx ≠ 0
    · rw [if_pos hscx]
      exact htail _ (fun y hy => hpre y (List.mem_cons_of_mem x hy)) hr hacc
    · rw [if_neg hscx]
      rw [Ne, Decidable.not_not] at hscx
      subst hscx
      have haccx : acceptsMethod x method = false := by
        by_contra hco
        rw [Bool.not_eq_false] at hco
        simp [isFullMatch, hmx, hco] at hnf
      rw [haccx]
      simp only [Bool.false_eq_true, if_false]
      exact htail 405 (fun y hy => hpre y (List.mem_cons_of_mem x hy)) hr hacc

/- ======================= Claim theorems ======================= -/

/-- C1 (counterexample): the claim's classification is wrong on the route
compiled from `\x7bsub\x7d.example.com/x` when the request host is
`.example.com` (required host parameter label present but empty) and the
path is `/x`: no candidate matched host and path, and no candidate's path
shape matched modulo a malformed value, so the claim predicts NOT_FOUND;
the code records the host matcher's 400 and panics with BAD_REQUEST. -/
theorem c1_claimed_priority_counterexample :
    getRouteLoop "GET".toList ".example.com".toList "/x".toList [routeHostParam] 404
      = .httpPanic 400 ∧
    specClaimStatus "GET".toList ".example.com".toList "/x".toList [routeHostParam] = 404 := by
  constructor
  · decide
  · decide

/-- C1 (amended): when the candidate loop of `getRoute` falls through,
the panic status is METHOD_NOT_ALLOWED when at least one candidate matched
host and path and failed only on method; otherwise BAD_REQUEST when at
least one candidate's token matching (host or path) reported a
present-but-empty required parameter; otherwise NOT_FOUND. -/
theorem c1_error_priority_amended (rs : List Route) (method hostPort path : Bytes) (s : Nat)
    (h : getRouteLoop method hostPort path rs 404 = .httpPanic s) :
    s = if rs.any (isFullMatchNoMethod method hostPort path) then 405
        else if rs.any (isBadRequestCand hostPort path) then 400
        else 404 := by
  have hc := getRouteLoop_classify method hostPort path rs 404 s h
  simpa using hc

/-- C1 (witness): the amended classification at a concrete non-matching
input (host `anything.other.com` fails on a literal label: NOT_FOUND). -/
theorem c1_error_priority_amended_witness :
    getRouteLoop "GET".toList "anything.other.com".toList "/x".toList [routeHostParam] 404
      = .httpPanic 404 ∧
    (404 : Nat) =
      (if [routeHostParam].any
          (isFullMatchNoMethod "GET".toList "anything.other.com".toList "/x".toList) then 405
       else if [routeHostParam].any
          (isBadRequestCand "anything.other.com".toList "/x".toList) then 400
       else 404) :=
  ⟨by decide, c1_error_priority_amended [routeHostParam] _ _ _ 404 (by decide)⟩

/-- C2 (counterexample): an ordinary non-match (static pattern `/`,
request path `/other`, the spec's own scenario) makes `getRoute` take the
`NewHTTPError(errorStatus, nil).Panic()` branch instead of returning a
result value: the failure is delivered by panic, not by a normal return. -/
theorem c2_nonmatch_panics_counterexample :
    getRouteLoop "GET".toList "localhost".toList "/other".toList [rootRoute] 404
      = .httpPanic 404 := by
  decide

/-- C2 (amended): when `getRoute` signals a non-match, it does so by
panicking with a `serverError` whose status is always one of the three
classifications 400, 404, 405 — never an unclassified status. -/
theorem c2_panic_status_classified (rs : List Route) (method hostPort path : Bytes) (s : Nat)
    (h : getRouteLoop method hostPort path rs 404 = .httpPanic s) :
    s = 400 ∨ s = 404 ∨ s = 405 := by
  have hc := getRouteLoop_classify method hostPort path rs 404 s h
  rw [hc]
  split
  · omega
  · split
    · omega
    · split <;> omega

/-- C2 (witness): the classified-panic theorem at the spec's
`/\x7bid\x7d` versus `/` scenario, which panics with 400. -/
theorem c2_panic_status_classified_witness :
    getRouteLoop "GET".toList "localhost".toList "/".toList [routeIdParam] 404
      = .httpPanic 400 ∧
    ((400 : Nat) = 400 ∨ (400 : Nat) = 404 ∨ (400 : Nat) = 405) :=
  ⟨by decide, c2_panic_status_classified [routeIdParam] "GET".toList "localhost".toList
    "/".toList 400 (by decide)⟩

/-- C3 (counterexample): a candidate whose host tokens fail to match is
not always recorded as not-found: on the route compiled from
`\x7bsub\x7d.example.com/x` and the host `.example.com` (required host
parameter label present but empty), the host matcher returns 400 and
`matchURLAndGetParam` records BAD_REQUEST. -/
theorem c3_host_empty_label_bad_request :
    routeHostParam.dynamicHost ≠ [] ∧
    matchTokens routeHostParam.dynamicHost (hostTokensOf ".example.com".toList) []
      = some ([], 400) ∧
    matchURLAndGetParam routeHostParam ".example.com".toList "/x".toList = some ([], 400) := by
  refine ⟨by decide, by decide, by decide⟩

/-- C3 (amended): when a candidate's host tokens fail to match, the error
recorded by `matchURLAndGetParam` is exactly the host token matcher's own
status, which is either not-found (mismatched or missing labels) or
bad-request (a required host parameter whose label is present but
empty). -/
theorem c3_host_failure_records_matcher_status (r : Route) (hostPort path : Bytes)
    (ps : Params) (s : Nat)
    (hne : r.dynamicHost ≠ [])
    (hh : matchTokens r.dynamicHost (hostTokensOf hostPort) [] = some (ps, s))
    (hs : s ≠ 0) :
    matchURLAndGetParam r hostPort path = some ([], s) ∧ (s = 400 ∨ s = 404) := by
  refine ⟨?_, ?_⟩
  · have hde : r.dynamicHost.isEmpty = false := by
      simpa [List.isEmpty_iff] using hne
    unfold matchURLAndGetParam
    rw [hde]
    simp only [Bool.false_eq_true, if_false, hh]
    rw [if_pos hs]
  · rcases matchTokens_status _ _ _ _ _ hh with h0 | h4 | h4
    · exact absurd h0 hs
    · exact Or.inl h4
    · exact Or.inr h4

/-- C3 (witness): the amended statement at the host `anything.other.com`,
whose literal label `example` fails to match: status 404. -/
theorem c3_host_failure_records_matcher_status_witness :
    matchURLAndGetParam routeHostParam "anything.other.com".toList "/x".toList
      = some ([], 404) ∧
    ((404 : Nat) = 400 ∨ (404 : Nat) = 404) :=
  c3_host_failure_records_matcher_status routeHostParam "anything.other.com".toList
    "/x".toList [] 404 (by decide) (by decide) (by decide)

/-- C4 (code bug, evaluation): for the pattern `/a/b/\x7bname?\x7d` and the
request path `/a/b` (all preceding segments supplied, trailing optional
segment omitted), `trimSlashes(pathBytes, len(staticPattern))` returns the
whole path instead of the empty remainder, so the dynamic tokens are
re-matched against the static segments: resolution fails with 404 instead
of succeeding, and for the one-segment static prefix `/a/\x7bname?\x7d`
versus `/a` it "succeeds" but spuriously binds `name` to the static
segment `a` instead of leaving it unbound. -/
theorem c4_optional_trailing_param_eval :
    matchURLAndGetParam routeOptTwoSeg "localhost".toList "/a/b".toList
      = some ([("name".toList, "a".toList)], 404) ∧
    getRouteLoop "GET".toList "localhost".toList "/a/b".toList [routeOptTwoSeg] 404
      = .httpPanic 404 ∧
    matchURLAndGetParam routeOptOneSeg "localhost".toList "/a".toList
      = some ([("name".toList, "a".toList)], 0) := by
  refine ⟨by decide, by decide, by decide⟩

/-- C5 (code bug, evaluation): for the pattern `/a/*/c` and the path
`/a/c`, the wildcard consumes the only remaining segment and the loop then
reaches the literal token `c` with the path exhausted; `isOptional("c")`
indexes byte `len-2 = -1`, a Go runtime panic (`none` in this embedding),
instead of the not-found classification the claim requires.  The
too-many-segments case `/a/b/d/c` does fail with 404 as claimed. -/
theorem c5_wildcard_eval :
    getRouteLoop "GET".toList "localhost".toList "/a/c".toList [routeStarMid] 404
      = .runtimePanic ∧
    isOptional "c".toList = none ∧
    matchURLAndGetParam routeStarMid "localhost".toList "/a/b/d/c".toList = some ([], 404) := by
  refine ⟨by decide, by decide, by decide⟩

/-- C6: whenever path token matching reaches a required parameter token
(leading `\x7b`, not marked optional) whose corresponding actual segment is
present but empty, it stops with BAD_REQUEST (400), not NOT_FOUND — and in
particular the registered pattern `/\x7bid\x7d` resolved against the path
`/` panics with 400. -/
theorem c6_required_param_empty_bad_request (key : Bytes) (restPat restTok : List Bytes)
    (params : Params)
    (hhead : key.head? = some '{') (hopt : isOptional key = some false) :
    matchTokens (key :: restPat) ([] :: restTok) params = some (params, 400) ∧
    getRouteLoop "GET".toList "localhost".toList "/".toList [routeIdParam] 404
      = .httpPanic 400 := by
  constructor
  · cases key with
    | nil => simp at hhead
    | cons c keyRest =>
      have hc : c = '{' := by simpa using hhead
      subst hc
      simp only [matchTokens]
      rw [if_pos trivial]
      unfold parsePathParam
      rw [hopt]
      simp
  · decide

/-- C6 (witness): the theorem instantiated at the token `\x7bid\x7d` with
an empty actual segment. -/
theorem c6_required_param_empty_bad_request_witness :
    matchTokens ("\x7bid\x7d".toList :: []) (([] : Bytes) :: []) [] = some ([], 400) ∧
    getRouteLoop "GET".toList "localhost".toList "/".toList [routeIdParam] 404
      = .httpPanic 400 :=
  c6_required_param_empty_bad_request "\x7bid\x7d".toList [] [] [] (by decide) (by decide)

/-- C7 (counterexample): a `**` token is not a terminal success when the
actual segments are exhausted before it: `matchTokens` with pattern `**`
and zero remaining actual tokens takes the exhausted branch
(`isOptional("**") = false`) and fails 404, and the route `/a/\x7bp\x7d/**`
does not match `/a/v` (zero segments remain for `**`), contradicting the
claim's "including zero". -/
theorem c7_wildcardall_zero_remaining_counterexample :
    matchTokens [['*', '*']] [] [] = some ([], 404) ∧
    matchURLAndGetParam routeParamWildAll "localhost".toList "/a/v".toList
      = some ([("p".toList, "v".toList)], 404) := by
  refine ⟨by decide, by decide⟩

/-- C7 (amended): a `**` pattern token is a terminal success whenever
matching reaches it with at least one actual segment remaining; with the
segments already exhausted it is treated like a required token and fails
not-found.  The claim's listed examples hold: `/a/**` matches `/a`, `/a/b`
and `/a/b/c/d` (the dynamic token list built by `bytes.Split` is never
empty, so `**` as the first dynamic token always sees a remaining
segment). -/
theorem c7_wildcardall_terminal (keyRest : Bytes) (restPat : List Bytes)
    (tok : Bytes) (restTok : List Bytes) (params : Params) :
    matchTokens (('*' :: '*' :: keyRest) :: restPat) (tok :: restTok) params
      = some (params, 0) ∧
    getRouteLoop "GET".toList "localhost".toList "/a".toList [routeWildAll] 404
      = .found routeWildAll [] ∧
    getRouteLoop "GET".toList "localhost".toList "/a/b".toList [routeWildAll] 404
      = .found routeWildAll [] ∧
    getRouteLoop "GET".toList "localhost".toList "/a/b/c/d".toList [routeWildAll] 404
      = .found routeWildAll [] := by
  refine ⟨?_, by decide, by decide, by decide⟩
  simp [matchTokens]

/-- C8: host patterns match right-to-left: the compiled host tokens of
`\x7bsub\x7d.example.com/x/\x7bp\x7d` are stored reversed (`com`,
`example`, `\x7bsub\x7d`), the incoming host has its `:port` stripped and
its labels reversed, `anything.example.com:8080` matches with the binding
`sub = anything`, `example.com` fails (missing required label) and
`anything.other.com` fails (literal label mismatch). -/
theorem c8_host_reversed_matching :
    routeHostSub.dynamicHost
      = ["com".toList, "example".toList, "\x7bsub\x7d".toList] ∧
    matchURLAndGetParam routeHostSub "anything.example.com:8080".toList "/x/v".toList
      = some ([("sub".toList, "anything".toList), ("p".toList, "v".toList)], 0) ∧
    matchURLAndGetParam routeHostSub "example.com".toList "/x/v".toList = some ([], 404) ∧
    matchURLAndGetParam routeHostSub "anything.other.com".toList "/x/v".toList
      = some ([], 404) := by
  refine ⟨by decide, by decide, by decide, by decide⟩

/-- C9: candidates are tried in registration order and the first candidate
whose host and path match and whose method set accepts the incoming method
(a nil set accepts everything) is returned without trying further
candidates; concretely, `/p` registered under GET (handler 1) and then
POST (handler 2) routes GET to handler 1 and POST to handler 2, and PUT on
the same pattern yields METHOD_NOT_ALLOWED, not NOT_FOUND. -/
theorem c9_first_full_match_wins (pre : List Route) (r : Route) (post : List Route)
    (method hostPort path : Bytes) (params : Params)
    (hpre : ∀ x ∈ pre, (matchURLAndGetParam x hostPort path).isSome ∧
        isFullMatch method hostPort path x = false)
    (hr : matchURLAndGetParam r hostPort path = some (params, 0))
    (hacc : acceptsMethod r method = true) :
    getRouteLoop method hostPort path (pre ++ r :: post) 404 = .found r params ∧
    (∀ (r' : Route) (m' : Bytes), r'.methods = none → acceptsMethod r' m' = true) ∧
    getRoute methodTable "GET".toList "p".toList "localhost".toList "/p".toList
      = .found routeGetP [] ∧
    getRoute methodTable "POST".toList "p".toList "localhost".toList "/p".toList
      = .found routePostP [] ∧
    getRoute methodTable "PUT".toList "p".toList "localhost".toList "/p".toList
      = .httpPanic 405 := by
  refine ⟨getRouteLoop_first_match method hostPort path pre r post params 404 hpre hr hacc,
    ?_, by decide, by decide, by decide⟩
  intro r' m' hnone
  simp [acceptsMethod, hnone]

/-- C9 (witness): the theorem instantiated with the GET-only route ahead
of the POST route and a POST request: the second candidate wins. -/
theorem c9_first_full_match_wins_witness :
    (getRouteLoop "POST".toList "localhost".toList "/p".toList
        ([routeGetP] ++ routePostP :: []) 404 = .found routePostP [] ∧
     (∀ (r' : Route) (m' : Bytes), r'.methods = none → acceptsMethod r' m' = true) ∧
     getRoute methodTable "GET".toList "p".toList "localhost".toList "/p".toList
       = .found routeGetP [] ∧
     getRoute methodTable "POST".toList "p".toList "localhost".toList "/p".toList
       = .found routePostP [] ∧
     getRoute methodTable "PUT".toList "p".toList "localhost".toList "/p".toList
       = .httpPanic 405) :=
  c9_first_full_match_wins [routeGetP] routePostP [] "POST".toList "localhost".toList
    "/p".toList [] (by decide) (by decide) (by decide)

/-- C10: for a compiled route with no dynamic path tokens (and a host part
that is absent or matches), `matchURLAndGetParam` declares a successful
match for ANY incoming path whose slash-trimmed form merely has the same
length as the static key — the bytes of the path are never compared
against the static key (the caller's bucket selection is trusted). -/
theorem c10_static_route_length_only (r : Route) (hostPort path : Bytes)
    (hdyn : r.dynamicPattern = [])
    (hlen : (trim0 path).length = r.staticPattern.length)
    (hhost : r.dynamicHost = [] ∨
      ∃ ps, matchTokens r.dynamicHost (hostTokensOf hostPort) [] = some (ps, 0)) :
    matchURLAndGetParam r hostPort path = some ([], 0) := by
  have hpath : ∀ params, matchPathPart r (trim0 path) params = some ([], 0) := by
    intro params
    unfold matchPathPart
    rw [if_pos ⟨hlen, hdyn⟩]
  unfold matchURLAndGetParam
  by_cases hde : r.dynamicHost.isEmpty
  · rw [if_pos hde]
    exact hpath []
  · rcases hhost with hh | ⟨ps, hh⟩
    · exact absurd (by simp [hh]) hde
    · rw [if_neg hde, hh]
      simp only
      rw [if_neg (by omega : ¬(0 : Nat) ≠ 0)]
      exact hpath ps

/-- C10 (witness): the purely static route `/abc` "matches" the
different-bytes, same-length path `/xyz`, exhibiting that only lengths are
compared. -/
theorem c10_static_route_length_only_witness :
    matchURLAndGetParam routeAbc "localhost".toList "/xyz".toList = some ([], 0) :=
  c10_static_route_length_only routeAbc "localhost".toList "/xyz".toList
    (by decide) (by decide) (Or.inl (by decide))

end AdtRoute
